import Mathlib

/-
  Verification of the real-time relationship-state synchronization subsystem
  implemented in src/stores/friendsStore.ts.

  The store state, the realtime change handlers, the hydration queries and the
  channel-manager retry logic are embedded as pure Lean functions.  External
  collaborators (the Supabase relationship store, the auth session and the
  realtime channel library) are modelled as explicit inputs: bulk queries are
  passed in as `Except`-valued results, the per-event profile lookup as a
  function argument, and asynchronous callback deliveries as separate step
  functions on the store state.
-/

namespace FriendsStore

/-- Friend entry of the store state (interface Friend in friendsStore.ts). -/
structure Friend where
  id : String
  username : String
  weeklyCount : Nat
  streakDays : Nat
deriving DecidableEq, Repr

/-- Sender half of a pending request (the `from` field of FriendRequest). -/
structure Sender where
  id : String
  username : String
deriving DecidableEq, Repr

/-- Pending friend request entry (interface FriendRequest in friendsStore.ts);
the source field `from` is named `fromUser` here because `from` is reserved. -/
structure FriendRequest where
  id : String
  fromUser : Sender
  status : String
deriving DecidableEq, Repr

/-- Channel state of the realtime subscription (field realtimeStatus). -/
inductive RealtimeStatus
  | disconnected
  | connecting
  | connected
  | error
deriving DecidableEq, Repr, BEq

/-- The zustand store state (interface FriendsState in friendsStore.ts).
Realtime channels are opaque handles, modelled as numeric ids. -/
structure FriendsState where
  friends : List Friend
  friendRequests : List FriendRequest
  loading : Bool
  realtimeStatus : RealtimeStatus
  subscriptions : List Nat
  connectionAttempts : Nat
  lastError : Option String
deriving DecidableEq, Repr

/-- The `initialState` constant of friendsStore.ts. -/
def initialState : FriendsState :=
  { friends := []
  , friendRequests := []
  , loading := false
  , realtimeStatus := .disconnected
  , subscriptions := []
  , connectionAttempts := 0
  , lastError := none }

/-- Row of the `friendships` table (the external RelationshipRecord). -/
structure FriendshipRow where
  id : String
  user_id : String
  friend_id : String
  status : String
deriving DecidableEq, Repr

/-- Row of the `profiles` table as selected by the store's queries. -/
structure ProfileRow where
  id : String
  username : String
  weekly_count : Nat
  streak_days : Nat
deriving DecidableEq, Repr

/-- Postgres-changes payload delivered to the handlers: `new` carries the
inserted/updated row, `old` the deleted row; either may be absent. -/
structure RealtimePayload where
  new : Option FriendshipRow
  old : Option FriendshipRow
deriving DecidableEq, Repr

/-- A toast notification intent (title, description). -/
structure ToastIntent where
  title : String
  description : String
deriving DecidableEq, Repr

/-- Ids of the cached pending requests, in display order. -/
def requestIds (s : FriendsState) : List String :=
  s.friendRequests.map (·.id)

/-- Embedding of `handleNewFriendRequest` (friendsStore.ts lines 552-635).
The sender-profile query `.eq('id', user_id).single()` against the external
store is passed in as `lookupSender`; `.error e` models a query error and
`.ok none` models a missing row.  Returns the new state together with the
toast intent emitted, if any.  Mirrors the source exactly: a missing or
non-pending record returns early; a failed or empty profile lookup returns
early WITHOUT touching the cache; otherwise the request is appended unless an
entry with the same relationship-record id is already present, and the toast
is emitted in either case. -/
def handleNewFriendRequest
    (lookupSender : String → Except String (Option ProfileRow))
    (payload : RealtimePayload) (s : FriendsState) :
    FriendsState × Option ToastIntent :=
  match payload.new with
  | none => (s, none)
  | some newFriendship =>
    if newFriendship.status ≠ "pending" then (s, none)
    else
      match lookupSender newFriendship.user_id with
      | .error _ => (s, none)
      | .ok none => (s, none)
      | .ok (some profile) =>
        let newRequest : FriendRequest :=
          { id := newFriendship.id
          , fromUser := { id := profile.id, username := profile.username }
          , status := "pending" }
        let s' :=
          if (s.friendRequests.find? (fun req => req.id == newRequest.id)).isSome then s
          else { s with friendRequests := s.friendRequests ++ [newRequest] }
        (s', some { title := "New Friend Request"
                  , description := profile.username ++ " wants to be your friend!" })

/-- Embedding of `handleFriendRequestUpdate` (friendsStore.ts lines 637-650).
The returned Bool records whether a full friends re-hydration
(`refreshFriends`) was triggered. -/
def handleFriendRequestUpdate (payload : RealtimePayload) (s : FriendsState) :
    FriendsState × Bool :=
  match payload.new with
  | none => (s, false)
  | some updatedFriendship =>
    if updatedFriendship.status == "accepted" then
      ({ s with friendRequests :=
          s.friendRequests.filter (fun req => req.id != updatedFriendship.id) }, true)
    else (s, false)

/-- Embedding of `handleFriendRequestDelete` (friendsStore.ts lines 652-662). -/
def handleFriendRequestDelete (payload : RealtimePayload) (s : FriendsState) :
    FriendsState :=
  match payload.old with
  | none => s
  | some deletedFriendship =>
    { s with friendRequests :=
        s.friendRequests.filter (fun req => req.id != deletedFriendship.id) }

/-- One incoming change event as dispatched by the channel callbacks: an
INSERT (together with the store's response to the sender-profile lookup the
handler performs), an UPDATE, or a DELETE. -/
inductive ChangeEvent
  | insert (payload : RealtimePayload)
      (lookupSender : String → Except String (Option ProfileRow))
  | update (payload : RealtimePayload)
  | delete (payload : RealtimePayload)

/-- Apply one change event to the store state via the matching handler. -/
def applyChangeEvent (e : ChangeEvent) (s : FriendsState) : FriendsState :=
  match e with
  | .insert payload lookupSender => (handleNewFriendRequest lookupSender payload s).1
  | .update payload => (handleFriendRequestUpdate payload s).1
  | .delete payload => handleFriendRequestDelete payload s

/-- Apply a sequence of change events in arrival order. -/
def applyChangeEvents (es : List ChangeEvent) (s : FriendsState) : FriendsState :=
  es.foldl (fun s e => applyChangeEvent e s) s

/-- Retry ceiling `maxRetries` of `startRealtimeSubscriptions` (line 371). -/
def maxRetries : Nat := 3

/-- Backoff delay `Math.min(1000 * (2 ** connectionAttempts), 10000)` computed
at line 372 from the attempt counter as read BEFORE it is incremented. -/
def retryDelay (connectionAttempts : Nat) : Nat :=
  min (1000 * 2 ^ connectionAttempts) 10000

/-- Embedding of `stopRealtimeSubscriptions` (friendsStore.ts lines 538-550):
removes every channel via the external library, empties the subscription
list and sets the status to disconnected.  No other field is touched. -/
def stopRealtimeSubscriptions (s : FriendsState) : FriendsState :=
  { s with subscriptions := [], realtimeStatus := .disconnected }

/-- Synchronous outcome of one `startRealtimeSubscriptions` call. -/
inductive StartOutcome
  /-- Early return: no authenticated user (lines 364-368). -/
  | noUser
  /-- Early return: `connectionAttempts >= maxRetries` (lines 374-381);
  status set to error, no channel opened, no retry timer scheduled. -/
  | ceilingReached
  /-- The catch path (lines 521-535): no valid session token, status set to
  error and one retry timer scheduled after `retryAfter` milliseconds. -/
  | authFailed (retryAfter : Nat)
  /-- Channels opened and subscribed (lines 410-520); the subscribe callback
  will later be delivered with the captured delay `retryAfter` in scope. -/
  | channelOpened (retryAfter : Nat)
deriving DecidableEq, Repr

/-- Embedding of the synchronous body of `startRealtimeSubscriptions`
(friendsStore.ts lines 363-536).  `user` is the auth-store user and
`sessionToken` the access token returned by `supabase.auth.getSession()`.
The two channels created in the successful path are modelled by the handles
0 and 1.  Asynchronous subscribe-status callbacks are modelled separately by
`subscribeCallback`. -/
def startRealtimeSubscriptions (user : Option String) (sessionToken : Option String)
    (s : FriendsState) : FriendsState × StartOutcome :=
  match user with
  | none => (s, .noUser)
  | some _uid =>
    let connectionAttempts := s.connectionAttempts
    let delay := retryDelay connectionAttempts
    if connectionAttempts ≥ maxRetries then
      ({ s with realtimeStatus := .error
              , lastError := some "Maximum connection attempts exceeded" }, .ceilingReached)
    else
      let s1 := stopRealtimeSubscriptions s
      let s2 := { s1 with realtimeStatus := .connecting
                        , connectionAttempts := connectionAttempts + 1
                        , lastError := none }
      match sessionToken with
      | none =>
        ({ s2 with realtimeStatus := .error
                 , lastError := some "No valid session found for real-time connection" },
         .authFailed delay)
      | some _token =>
        ({ s2 with subscriptions := s2.subscriptions ++ [0, 1] }, .channelOpened delay)

/-- Status values delivered to the `.subscribe((status, err) => ...)` callback
of the friend-requests channel. -/
inductive SubscribeStatus
  | subscribed
  | channelError (msg : Option String)
  | closed
  | other
deriving Repr

/-- Embedding of the subscribe-status callback (friendsStore.ts lines
459-490).  `retryAfter` is the `retryDelay` value captured by the closure
when the attempt started.  The returned `Option Nat` is the retry timer the
callback schedules, if any (its delay in milliseconds). -/
def subscribeCallback (retryAfter : Nat) (status : SubscribeStatus)
    (s : FriendsState) : FriendsState × Option Nat :=
  match status with
  | .subscribed =>
    ({ s with realtimeStatus := .connected
            , connectionAttempts := 0
            , lastError := none }, none)
  | .channelError msg =>
    ({ s with realtimeStatus := .error
            , lastError := some (msg.getD "Connection failed") }, some retryAfter)
  | .closed => (s, some retryAfter)
  | .other => (s, none)

/-- Guard of the retry timer scheduled on CHANNEL_ERROR (lines 477-481):
the timer body invokes `retryConnection` only if the status is still error. -/
def errorRetryTimerFires (s : FriendsState) : Bool :=
  s.realtimeStatus == .error

/-- Guard of the retry timer scheduled on CLOSED (lines 484-488): the timer
body invokes `retryConnection` whenever the status is not connected. -/
def closedRetryTimerFires (s : FriendsState) : Bool :=
  s.realtimeStatus != .connected

/-- Embedding of `retryConnection` (friendsStore.ts lines 664-667): it only
re-runs `startRealtimeSubscriptions`; it does not touch the attempt counter. -/
def retryConnection (user sessionToken : Option String) (s : FriendsState) :
    FriendsState × StartOutcome :=
  startRealtimeSubscriptions user sessionToken s

/-- Embedding of `clearError` (friendsStore.ts lines 669-674). -/
def clearError (s : FriendsState) : FriendsState :=
  { s with lastError := none, connectionAttempts := 0 }

/-- JS `Set.add`: append the element unless already present (JS sets keep
insertion order, so the model appends at the tail). -/
def insertUnique (x : String) (l : List String) : List String :=
  if x ∈ l then l else l ++ [x]

/-- Loop body of the counterparty extraction: add `friend_id` when
`user_id` is the current user, else `user_id` when `friend_id` is. -/
def collectStep (uid : String) (acc : List String) (f : FriendshipRow) :
    List String :=
  if f.user_id == uid then insertUnique f.friend_id acc
  else if f.friend_id == uid then insertUnique f.user_id acc
  else acc

/-- The counterparty-extraction loop shared by `refreshFriends` (lines 84-93)
and `searchUsers` (lines 206-215): walk the friendship rows, adding
`friend_id` when `user_id` is the current user, else `user_id` when
`friend_id` is the current user. -/
def collectCounterparties (uid : String) (rows : List FriendshipRow) : List String :=
  rows.foldl (collectStep uid) []

/-- Error toast shown by `refreshFriends` on failure (line 119). -/
def friendsErrorToast : ToastIntent :=
  { title := "Error", description := "Failed to load friends" }

/-- Embedding of `refreshFriends` (friendsStore.ts lines 63-124).  The two
external store queries are passed in as results: `friendshipsResult` for the
accepted-friendships query and `profilesResult` for the profile bulk read.
Faithful to the source: BOTH failure paths land in the catch block, which
sets `friends` to the empty list (line 120) — the prior cache is not kept. -/
def refreshFriends (user : Option String) (s : FriendsState)
    (friendshipsResult : Except String (List FriendshipRow))
    (profilesResult : Except String (List ProfileRow)) :
    FriendsState × Option ToastIntent :=
  match user with
  | none => (s, none)
  | some uid =>
    match friendshipsResult with
    | .error _ => ({ s with friends := [], loading := false }, some friendsErrorToast)
    | .ok friendshipData =>
      let friendIds := collectCounterparties uid friendshipData
      if friendIds.length > 0 then
        match profilesResult with
        | .error _ => ({ s with friends := [], loading := false }, some friendsErrorToast)
        | .ok profilesData =>
          let friends := profilesData.map (fun profile =>
            { id := profile.id
            , username := profile.username
            , weeklyCount := profile.weekly_count
            , streakDays := profile.streak_days : Friend })
          ({ s with friends := friends, loading := false }, none)
      else
        ({ s with friends := [], loading := false }, none)

/-- Error toast shown by `refreshFriendRequests` on failure (line 167). -/
def requestsErrorToast : ToastIntent :=
  { title := "Error", description := "Failed to load friend requests" }

/-- Per-row request builder of `refreshFriendRequests` (lines 149-158):
resolve the requester profile with `find`, fall back to the literal
placeholder username "Unknown" when the profile is missing, and — mirroring
the JS `profile?.username || 'Unknown'` — also when the stored username is
the empty string (falsy). -/
def buildRequest (profilesData : List ProfileRow) (req : FriendshipRow) :
    FriendRequest :=
  { id := req.id
  , fromUser :=
    { id := req.user_id
    , username :=
        match profilesData.find? (fun p => p.id == req.user_id) with
        | some profile => if profile.username == "" then "Unknown" else profile.username
        | none => "Unknown" }
  , status := "pending" }

/-- Embedding of `refreshFriendRequests` (friendsStore.ts lines 126-171).
`requestsResult` is the pending-rows query keyed on `friend_id = user`, and
`profilesResult` the requester-profile bulk read.  Note the source filters
out every built entry whose username is the literal "Unknown" (line 159),
and on failure it keeps `friendRequests` unchanged. -/
def refreshFriendRequests (user : Option String) (s : FriendsState)
    (requestsResult : Except String (List FriendshipRow))
    (profilesResult : Except String (List ProfileRow)) :
    FriendsState × Option ToastIntent :=
  match user with
  | none => (s, none)
  | some _uid =>
    match requestsResult with
    | .error _ => ({ s with loading := false }, some requestsErrorToast)
    | .ok requestData =>
      if requestData.length > 0 then
        match profilesResult with
        | .error _ => ({ s with loading := false }, some requestsErrorToast)
        | .ok profilesData =>
          let requests := (requestData.map (buildRequest profilesData)).filter
            (fun req => req.fromUser.username != "Unknown")
          ({ s with friendRequests := requests, loading := false }, none)
      else
        ({ s with friendRequests := [], loading := false }, none)

/-- Character-list prefix test used by the `ilike` model. -/
def startsWithSeq : List Char → List Char → Bool
  | _, [] => true
  | [], _ :: _ => false
  | c :: cs, d :: ds => c == d && startsWithSeq cs ds

/-- Character-list containment test used by the `ilike` model. -/
def containsSeq (pat : List Char) : List Char → Bool
  | [] => pat.isEmpty
  | c :: cs => startsWithSeq (c :: cs) pat || containsSeq pat cs

/-- Whitespace trimming on the character list, modelling the JS
`query.trim()` call at line 175. -/
def trimChars (l : List Char) : List Char :=
  ((l.dropWhile Char.isWhitespace).reverse.dropWhile Char.isWhitespace).reverse

/-- Blank-query guard `!query.trim()` (line 175): true when the query is
empty or whitespace-only. -/
def isBlank (query : String) : Bool :=
  (trimChars query.data).isEmpty

/-- Case-insensitive containment, modelling the SQL pattern
`username ilike %query%` built at line 184. -/
def ilikeContains (pat s : String) : Bool :=
  containsSeq (pat.data.map Char.toLower) (s.data.map Char.toLower)

/-- Embedding of `searchUsers` (friendsStore.ts lines 173-230).  The external
store is modelled by the two table contents plus injected query failures
(`profilesError`, `friendshipsError`); the server-side query operators
(`ilike`, `neq`, `limit`, `or`, `in`) are modelled as list operations.
Every failure path returns the empty list via the catch block. -/
def searchUsers (currentUser : Option String) (query : String)
    (profilesTable : List ProfileRow) (friendshipsTable : List FriendshipRow)
    (profilesError friendshipsError : Option String) : List ProfileRow :=
  match currentUser with
  | none => []
  | some uid =>
    if isBlank query then []
    else
      match profilesError with
      | some _ => []
      | none =>
        let matchingProfiles :=
          (profilesTable.filter (fun p =>
            ilikeContains query p.username && p.id != uid)).take 10
        if matchingProfiles.isEmpty then []
        else
          match friendshipsError with
          | some _ => []
          | none =>
            let existingFriendships := friendshipsTable.filter (fun f =>
              (f.user_id == uid || f.friend_id == uid) &&
              (f.status == "pending" || f.status == "accepted"))
            let excludedUserIds := collectCounterparties uid existingFriendships
            matchingProfiles.filter (fun p => !(excludedUserIds.contains p.id))

/-! ### Helper lemmas -/

theorem find?_append_singleton_isSome {α : Type} (p : α → Bool) (l : List α) (a : α)
    (h : p a = true) : ((l ++ [a]).find? p).isSome = true := by
  rw [List.find?_isSome]
  exact ⟨a, by simp, h⟩

theorem nodup_append_singleton {α : Type} {l : List α} {a : α}
    (h : l.Nodup) (ha : a ∉ l) : (l ++ [a]).Nodup := by
  refine List.nodup_append.mpr ⟨h, List.nodup_singleton a, ?_⟩
  intro x hx hx'
  rw [List.mem_singleton] at hx'
  exact ha (hx' ▸ hx)

theorem nodup_filter_requestIds (q : FriendRequest → Bool) (s : FriendsState)
    (h : (requestIds s).Nodup) :
    ((s.friendRequests.filter q).map (·.id)).Nodup :=
  h.sublist ((List.filter_sublist s.friendRequests).map (·.id))

/-- Case analysis on `handleNewFriendRequest`: either the state is returned
unchanged, or the event is a valid pending insert whose sender resolved, no
entry with the incoming record id was cached, and exactly that request is
appended at the tail. -/
theorem handleNewFriendRequest_cases
    (lk : String → Except String (Option ProfileRow))
    (p : RealtimePayload) (s : FriendsState) :
    (handleNewFriendRequest lk p s).1 = s ∨
    ∃ rec profile,
      p.new = some rec ∧ rec.status = "pending" ∧
      lk rec.user_id = .ok (some profile) ∧
      ((s.friendRequests.find? (fun req => req.id == rec.id)).isSome = false) ∧
      (handleNewFriendRequest lk p s).1 =
        { s with friendRequests := s.friendRequests ++
            [{ id := rec.id
             , fromUser := { id := profile.id, username := profile.username }
             , status := "pending" }] } := by
  unfold handleNewFriendRequest
  cases hn : p.new with
  | none => exact Or.inl rfl
  | some rec =>
    by_cases hst : rec.status ≠ "pending"
    · simp [hst]
    · cases hl : lk rec.user_id with
      | error e => simp [hst, hl]
      | ok op =>
        cases op with
        | none => simp [hst, hl]
        | some profile =>
          rw [not_not] at hst
          cases hfind : (s.friendRequests.find? (fun req => req.id == rec.id)).isSome with
          | true => simp [hst, hl, hfind]
          | false =>
            refine Or.inr ⟨rec, profile, rfl, hst, hl, hfind, ?_⟩
            simp [hst, hl, hfind]

theorem nodup_handleNewFriendRequest
    (lk : String → Except String (Option ProfileRow))
    (p : RealtimePayload) (s : FriendsState) (h : (requestIds s).Nodup) :
    (requestIds (handleNewFriendRequest lk p s).1).Nodup := by
  rcases handleNewFriendRequest_cases lk p s with heq | ⟨rec, profile, _, _, _, hfind, heq⟩
  · rw [heq]; exact h
  · rw [heq]
    have hnotmem : rec.id ∉ requestIds s := by
      intro hmem
      rcases List.mem_map.mp hmem with ⟨r, hr, hrid⟩
      have hsome : (s.friendRequests.find? (fun req => req.id == rec.id)).isSome = true :=
        List.find?_isSome.mpr ⟨r, hr, by simp [hrid]⟩
      rw [hfind] at hsome
      exact Bool.false_ne_true hsome
    simpa [requestIds] using nodup_append_singleton h hnotmem

theorem nodup_handleFriendRequestUpdate (p : RealtimePayload) (s : FriendsState)
    (h : (requestIds s).Nodup) :
    (requestIds (handleFriendRequestUpdate p s).1).Nodup := by
  unfold handleFriendRequestUpdate
  cases hpn : p.new with
  | none => exact h
  | some rec =>
    by_cases hst : (rec.status == "accepted") = true
    · simpa [hst, requestIds] using
        nodup_filter_requestIds (fun req => req.id != rec.id) s h
    · simpa [hst] using h

theorem nodup_handleFriendRequestDelete (p : RealtimePayload) (s : FriendsState)
    (h : (requestIds s).Nodup) :
    (requestIds (handleFriendRequestDelete p s)).Nodup := by
  unfold handleFriendRequestDelete
  cases hpo : p.old with
  | none => exact h
  | some rec =>
    simpa [requestIds] using
      nodup_filter_requestIds (fun req => req.id != rec.id) s h

theorem nodup_applyChangeEvent (e : ChangeEvent) (s : FriendsState)
    (h : (requestIds s).Nodup) :
    (requestIds (applyChangeEvent e s)).Nodup := by
  cases e with
  | insert p lk => exact nodup_handleNewFriendRequest lk p s h
  | update p => exact nodup_handleFriendRequestUpdate p s h
  | delete p => exact nodup_handleFriendRequestDelete p s h

theorem nodup_applyChangeEvents (es : List ChangeEvent) (s : FriendsState)
    (h : (requestIds s).Nodup) :
    (requestIds (applyChangeEvents es s)).Nodup := by
  induction es generalizing s with
  | nil => exact h
  | cons e es ih => exact ih _ (nodup_applyChangeEvent e s h)

theorem handleNewFriendRequest_idem
    (lk : String → Except String (Option ProfileRow))
    (p : RealtimePayload) (s : FriendsState) :
    (handleNewFriendRequest lk p (handleNewFriendRequest lk p s).1).1
      = (handleNewFriendRequest lk p s).1 := by
  rcases handleNewFriendRequest_cases lk p s with heq | ⟨rec, profile, hn, hst, hl, _, heq⟩
  · rw [heq]; exact heq
  · rw [heq]
    unfold handleNewFriendRequest
    rw [hn]
    simp only [hst, hl, ne_eq, not_true_eq_false, if_false]
    have hfind2 : ((s.friendRequests ++
        [{ id := rec.id
         , fromUser := { id := profile.id, username := profile.username }
         , status := "pending" : FriendRequest }]).find?
          (fun req => req.id == rec.id)).isSome = true :=
      find?_append_singleton_isSome _ _ _ (by simp)
    simp [hfind2]

/-! ### Claims -/

/-- C1: for every sequence of incoming change events applied through
`handleNewFriendRequest`, `handleFriendRequestUpdate` and
`handleFriendRequestDelete`, the `friendRequests` collection never contains
two entries with the same relationship-record id (starting from any state
without duplicates, in particular the empty initial cache); and applying the
same insert event twice to any cache state yields the same `friendRequests`
as applying it once. -/
theorem no_duplicate_requests_and_insert_idempotent :
    (∀ (es : List ChangeEvent) (s : FriendsState),
      (requestIds s).Nodup → (requestIds (applyChangeEvents es s)).Nodup) ∧
    (∀ (p : RealtimePayload) (lk : String → Except String (Option ProfileRow))
       (s : FriendsState),
      applyChangeEvent (.insert p lk) (applyChangeEvent (.insert p lk) s)
        = applyChangeEvent (.insert p lk) s) :=
  ⟨nodup_applyChangeEvents, fun p lk s => handleNewFriendRequest_idem lk p s⟩

/-- C1 witness: a concrete run with the same pending-insert event delivered
twice, starting from the empty cache, keeps the request ids duplicate-free. -/
theorem no_duplicate_requests_witness :
    (requestIds initialState).Nodup ∧
    (requestIds (applyChangeEvents
      [ChangeEvent.insert ⟨some ⟨"r1", "u2", "u1", "pending"⟩, none⟩
          (fun _ => .ok (some ⟨"u2", "alice", 0, 0⟩)),
       ChangeEvent.insert ⟨some ⟨"r1", "u2", "u1", "pending"⟩, none⟩
          (fun _ => .ok (some ⟨"u2", "alice", 0, 0⟩)),
       ChangeEvent.delete ⟨none, some ⟨"r0", "u9", "u1", "pending"⟩⟩]
      initialState)).Nodup :=
  ⟨by decide,
   no_duplicate_requests_and_insert_idempotent.1
     [ChangeEvent.insert ⟨some ⟨"r1", "u2", "u1", "pending"⟩, none⟩
        (fun _ => .ok (some ⟨"u2", "alice", 0, 0⟩)),
      ChangeEvent.insert ⟨some ⟨"r1", "u2", "u1", "pending"⟩, none⟩
        (fun _ => .ok (some ⟨"u2", "alice", 0, 0⟩)),
      ChangeEvent.delete ⟨none, some ⟨"r0", "u9", "u1", "pending"⟩⟩]
     initialState (by decide)⟩

/-- C2 counterexample: a valid pending-insert event whose sender-profile
lookup fails leaves the cache COMPLETELY unchanged — no entry for record
"r1" (with a placeholder label or otherwise) is added, contradicting the
claim that the cache mutation still proceeds. -/
theorem lookup_failure_no_placeholder_entry :
    handleNewFriendRequest (fun _ => Except.error "store unavailable")
      ⟨some ⟨"r1", "u2", "u1", "pending"⟩, none⟩ initialState
      = (initialState, none) ∧
    (handleNewFriendRequest (fun _ => Except.error "store unavailable")
      ⟨some ⟨"r1", "u2", "u1", "pending"⟩, none⟩ initialState).1.friendRequests
      = [] :=
  ⟨rfl, rfl⟩

/-- C2 (amended): when `handleNewFriendRequest` processes a pending-insert
event and the requester-profile lookup fails (query error or missing row),
the handler returns early and the whole event is dropped: the cache is left
unchanged (no placeholder entry is added) and no notification is emitted. -/
theorem lookup_failure_drops_event
    (lk : String → Except String (Option ProfileRow))
    (p : RealtimePayload) (s : FriendsState) (rec : FriendshipRow)
    (hn : p.new = some rec)
    (hfail : (∃ e, lk rec.user_id = Except.error e) ∨
             lk rec.user_id = Except.ok none) :
    handleNewFriendRequest lk p s = (s, none) := by
  unfold handleNewFriendRequest
  rw [hn]
  by_cases hst : rec.status ≠ "pending"
  · simp [hst]
  · rcases hfail with ⟨e, he⟩ | he <;> simp [hst, he]

/-- C2 witness: a concrete pending insert whose lookup reports no row is
dropped without touching the empty cache. -/
theorem lookup_failure_drops_event_witness :
    (⟨some ⟨"r1", "u2", "u1", "pending"⟩, none⟩ : RealtimePayload).new
        = some ⟨"r1", "u2", "u1", "pending"⟩ ∧
    handleNewFriendRequest (fun _ => Except.ok none)
      ⟨some ⟨"r1", "u2", "u1", "pending"⟩, none⟩ initialState
      = (initialState, none) :=
  ⟨rfl, lookup_failure_drops_event _ _ _ _ rfl (Or.inr rfl)⟩

/-- C3: an update event carrying record id R with status accepted removes
every cached pending request with id R (synchronously, in the state returned
by the handler itself — independent of the separate friends re-hydration,
which is only triggered, as witnessed by the returned flag), keeps all other
entries, and triggers `refreshFriends`. -/
theorem accepted_update_clears_pending
    (p : RealtimePayload) (s : FriendsState) (rec : FriendshipRow)
    (hn : p.new = some rec) (hacc : rec.status = "accepted") :
    (∀ r ∈ (handleFriendRequestUpdate p s).1.friendRequests, r.id ≠ rec.id) ∧
    (handleFriendRequestUpdate p s).2 = true ∧
    (∀ r ∈ s.friendRequests, r.id ≠ rec.id →
      r ∈ (handleFriendRequestUpdate p s).1.friendRequests) := by
  have hred : handleFriendRequestUpdate p s =
      ({ s with friendRequests :=
          s.friendRequests.filter (fun req => req.id != rec.id) }, true) := by
    unfold handleFriendRequestUpdate
    rw [hn]
    simp [hacc]
  rw [hred]
  refine ⟨?_, rfl, ?_⟩
  · intro r hr
    exact bne_iff_ne.mp (List.mem_filter.mp hr).2
  · intro r hr hne
    exact List.mem_filter.mpr ⟨hr, bne_iff_ne.mpr hne⟩

/-- C3 witness: a concrete accepted-update for the only cached request
triggers the re-hydration flag (and, per the theorem, clears the entry). -/
theorem accepted_update_clears_pending_witness :
    (⟨some ⟨"r1", "u2", "u1", "accepted"⟩, none⟩ : RealtimePayload).new
        = some ⟨"r1", "u2", "u1", "accepted"⟩ ∧
    (handleFriendRequestUpdate ⟨some ⟨"r1", "u2", "u1", "accepted"⟩, none⟩
        { initialState with
            friendRequests := [⟨"r1", ⟨"u2", "alice"⟩, "pending"⟩] }).2 = true :=
  ⟨rfl,
   (accepted_update_clears_pending
      ⟨some ⟨"r1", "u2", "u1", "accepted"⟩, none⟩
      { initialState with
          friendRequests := [⟨"r1", ⟨"u2", "alice"⟩, "pending"⟩] }
      ⟨"r1", "u2", "u1", "accepted"⟩ rfl rfl).2.1⟩

/-- One full failed connection attempt from state `s`: the synchronous start
(as user "u1" with a valid token) followed by delivery of a CHANNEL_ERROR
status to the subscribe callback, which captured the backoff delay computed
from the pre-increment attempt counter. -/
def failedAttempt (s : FriendsState) : FriendsState :=
  (subscribeCallback (retryDelay s.connectionAttempts) (.channelError none)
    (startRealtimeSubscriptions (some "u1") (some "t") s).1).1

/-- C4 counterexample: after three consecutive connection failures starting
from the initial state the counter sits at the ceiling of 3 in state error;
an explicit `retryConnection` call then does NOT reset the counter and does
NOT start a new attempt — it immediately returns to the error state with
outcome `ceilingReached` and the counter still at 3, contradicting the
claim that `retry()` "resets the counter and attempts again" (the counter
is only reset by `clearError` or a successful subscription). -/
theorem retry_at_ceiling_does_not_reset :
    (failedAttempt (failedAttempt (failedAttempt initialState))).connectionAttempts
      = 3 ∧
    (failedAttempt (failedAttempt (failedAttempt initialState))).realtimeStatus
      = .error ∧
    (retryConnection (some "u1") (some "t")
      (failedAttempt (failedAttempt (failedAttempt initialState)))).1.connectionAttempts
      = 3 ∧
    (retryConnection (some "u1") (some "t")
      (failedAttempt (failedAttempt (failedAttempt initialState)))).1.realtimeStatus
      = .error ∧
    (retryConnection (some "u1") (some "t")
      (failedAttempt (failedAttempt (failedAttempt initialState)))).2
      = StartOutcome.ceilingReached :=
  ⟨rfl, rfl, rfl, rfl, rfl⟩

/-- C4 (amended): on a channel error the callback enters the error state and
schedules exactly one automatic retry after the captured delay; a successful
start increments the counter by one, runs below the ceiling of 3, and uses
backoff delay min(1000·2^attempt, 10000) computed from the pre-increment
counter; at the ceiling the start procedure stays in error with no channel
opened and no timer, leaving the counter unchanged; `retryConnection` merely
re-runs the start procedure without resetting the counter — the counter is
reset only by `clearError` or by a successful SUBSCRIBED callback. -/
theorem retry_policy_amended :
    (∀ (s : FriendsState) (msg : Option String) (d : Nat),
      (subscribeCallback d (.channelError msg) s).1.realtimeStatus = .error ∧
      (subscribeCallback d (.channelError msg) s).2 = some d) ∧
    (∀ (u t : String) (s s' : FriendsState) (d : Nat),
      startRealtimeSubscriptions (some u) (some t) s = (s', .channelOpened d) →
      d = retryDelay s.connectionAttempts ∧
      d = min (1000 * 2 ^ s.connectionAttempts) 10000 ∧
      s'.connectionAttempts = s.connectionAttempts + 1 ∧
      s.connectionAttempts < maxRetries ∧
      s'.realtimeStatus = .connecting) ∧
    (∀ (u t : String) (s : FriendsState), maxRetries ≤ s.connectionAttempts →
      (startRealtimeSubscriptions (some u) (some t) s).2 = .ceilingReached ∧
      (startRealtimeSubscriptions (some u) (some t) s).1.realtimeStatus = .error ∧
      (startRealtimeSubscriptions (some u) (some t) s).1.connectionAttempts
        = s.connectionAttempts) ∧
    (∀ (u t : Option String) (s : FriendsState),
      retryConnection u t s = startRealtimeSubscriptions u t s) ∧
    (∀ s : FriendsState, (clearError s).connectionAttempts = 0) ∧
    (∀ (d : Nat) (s : FriendsState),
      (subscribeCallback d .subscribed s).1.connectionAttempts = 0) := by
  refine ⟨fun s msg d => ⟨rfl, rfl⟩, ?_, ?_, fun u t s => rfl,
          fun s => rfl, fun d s => rfl⟩
  · intro u t s s' d h
    unfold startRealtimeSubscriptions at h
    by_cases hc : s.connectionAttempts ≥ maxRetries
    · simp [hc] at h
    · simp only [ge_iff_le, hc, if_false, ite_false, if_neg hc] at h
      rw [Prod.mk.injEq] at h
      obtain ⟨hs', hd⟩ := h
      rw [StartOutcome.channelOpened.injEq] at hd
      subst hd
      subst hs'
      exact ⟨rfl, rfl, rfl, Nat.lt_of_not_le hc, rfl⟩
  · intro u t s h
    refine ⟨?_, ?_, ?_⟩ <;>
      simp [startRealtimeSubscriptions, h]

/-- C4 witness: the first start from the initial state opens a channel with
backoff delay 1000 ms and counter 1; at a counter of 3 the start reports the
ceiling. -/
theorem retry_policy_amended_witness :
    startRealtimeSubscriptions (some "u1") (some "t") initialState
      = ((startRealtimeSubscriptions (some "u1") (some "t") initialState).1,
         .channelOpened 1000) ∧
    (startRealtimeSubscriptions (some "u1") (some "t")
        initialState).1.connectionAttempts = initialState.connectionAttempts + 1 ∧
    maxRetries ≤ (3 : Nat) ∧
    (startRealtimeSubscriptions (some "u1") (some "t")
        { initialState with connectionAttempts := 3 }).2 = .ceilingReached :=
  ⟨rfl,
   (retry_policy_amended.2.1 "u1" "t" initialState _ 1000 rfl).2.2.1,
   by decide,
   (retry_policy_amended.2.2.1 "u1" "t"
      { initialState with connectionAttempts := 3 } (by decide)).1⟩

/-- C5 counterexample: start a connection attempt from the initial state,
call `stopRealtimeSubscriptions` while it is in flight, then deliver the
abandoned attempt's SUBSCRIBED callback: the state transitions to connected
— the store keeps no generation counter, so stop() does not make the manager
inert — and a pending CLOSED-branch retry timer would still fire after stop
(its guard only requires the status to differ from connected). -/
theorem stale_subscribed_after_stop_connects :
    (subscribeCallback 1000 .subscribed
        (stopRealtimeSubscriptions
          (startRealtimeSubscriptions (some "u1") (some "t")
            initialState).1)).1.realtimeStatus = .connected ∧
    closedRetryTimerFires
      (stopRealtimeSubscriptions
        (startRealtimeSubscriptions (some "u1") (some "t")
          initialState).1) = true :=
  ⟨rfl, rfl⟩

/-- C5 (amended): `stopRealtimeSubscriptions` empties the subscription list
and sets the status to disconnected, delegating callback suppression to the
external `removeChannel` call; the store itself holds no generation state,
so a SUBSCRIBED callback from an abandoned attempt that is still delivered
transitions the status to connected, and a pending CLOSED-branch retry timer
still fires `retryConnection` after stop; only an ERROR-branch retry timer
is neutralized by stop, because its guard requires the status to still be
error. -/
theorem stop_is_not_inert_amended :
    ∀ (s : FriendsState) (d : Nat),
      (stopRealtimeSubscriptions s).subscriptions = [] ∧
      (stopRealtimeSubscriptions s).realtimeStatus = .disconnected ∧
      (subscribeCallback d .subscribed
         (stopRealtimeSubscriptions s)).1.realtimeStatus = .connected ∧
      closedRetryTimerFires (stopRealtimeSubscriptions s) = true ∧
      errorRetryTimerFires (stopRealtimeSubscriptions s) = false :=
  fun _s _d => ⟨rfl, rfl, rfl, rfl, rfl⟩

/-- C6 counterexample: stopping from a state with two failed attempts keeps
the attempt counter at 2 — `stopRealtimeSubscriptions` does not reset it,
contradicting the claim that stop resets the retry counter. -/
theorem stop_does_not_reset_attempts :
    (stopRealtimeSubscriptions
      ⟨[], [], false, .error, [0, 1], 2, some "Connection failed"⟩).connectionAttempts
      = 2 ∧
    (stopRealtimeSubscriptions
      ⟨[], [], false, .error, [0, 1], 2, some "Connection failed"⟩).connectionAttempts
      ≠ 0 :=
  ⟨rfl, by decide⟩

/-- C6 (amended): `stopRealtimeSubscriptions` is a total function callable
from any state; its post-state has an empty subscription list and status
disconnected, while every other field — including the connection-attempt
counter, which the claim said is reset — is left unchanged (the counter is
reset only by `clearError` or a successful SUBSCRIBED callback). -/
theorem stop_unconditionally_safe_amended :
    ∀ s : FriendsState,
      (stopRealtimeSubscriptions s).subscriptions = [] ∧
      (stopRealtimeSubscriptions s).realtimeStatus = .disconnected ∧
      (stopRealtimeSubscriptions s).connectionAttempts = s.connectionAttempts ∧
      (stopRealtimeSubscriptions s).friends = s.friends ∧
      (stopRealtimeSubscriptions s).friendRequests = s.friendRequests ∧
      (stopRealtimeSubscriptions s).lastError = s.lastError :=
  fun _s => ⟨rfl, rfl, rfl, rfl, rfl, rfl⟩

/-- C7 counterexample: with one friend already cached, a failing friendships
fetch makes `refreshFriends` SET the friends list to the empty list — the
prior cache is wiped, contradicting the claim that the cache remains in its
prior state on hydration failure. -/
theorem hydration_failure_clears_friends :
    (refreshFriends (some "u1")
      { initialState with friends := [⟨"u2", "bob", 3, 4⟩] }
      (Except.error "network down") (Except.ok [])).1.friends = [] ∧
    ({ initialState with friends := [⟨"u2", "bob", 3, 4⟩] } : FriendsState).friends
      ≠ [] :=
  ⟨rfl, by simp⟩

/-- C7 (amended): when the bulk hydration fetch of friends fails — either
the friendships query or the subsequent profiles query — `refreshFriends`
clears the friends cache to the empty list (it does not preserve the prior
state) and emits the destructive error toast. -/
theorem refreshFriends_failure_amended :
    (∀ (uid : String) (s : FriendsState) (e : String)
       (profilesResult : Except String (List ProfileRow)),
      (refreshFriends (some uid) s (Except.error e) profilesResult).1.friends = [] ∧
      (refreshFriends (some uid) s (Except.error e) profilesResult).2
        = some friendsErrorToast) ∧
    (∀ (uid : String) (s : FriendsState) (rows : List FriendshipRow) (e : String),
      (collectCounterparties uid rows).length > 0 →
      (refreshFriends (some uid) s (Except.ok rows) (Except.error e)).1.friends = [] ∧
      (refreshFriends (some uid) s (Except.ok rows) (Except.error e)).2
        = some friendsErrorToast) := by
  constructor
  · intro uid s e profilesResult
    exact ⟨rfl, rfl⟩
  · intro uid s rows e h
    unfold refreshFriends
    simp [h]

/-- C7 witness: a concrete accepted friendship row yields a nonempty id set,
and a failing profiles query still wipes the friends list. -/
theorem refreshFriends_failure_amended_witness :
    (collectCounterparties "u1" [⟨"r1", "u1", "u2", "accepted"⟩]).length > 0 ∧
    (refreshFriends (some "u1") initialState
      (Except.ok [⟨"r1", "u1", "u2", "accepted"⟩])
      (Except.error "boom")).1.friends = [] :=
  ⟨by decide,
   (refreshFriends_failure_amended.2 "u1" initialState
      [⟨"r1", "u1", "u2", "accepted"⟩] "boom" (by decide)).1⟩

/-- C8 counterexample: a pending insert whose recipient (`friend_id` "u3")
is NOT the current user is processed anyway — `handleNewFriendRequest`
performs no recipient check at all (the current user is not even an input
of the handler), so the request is cached and a notification is emitted,
contradicting the claim that such events are ignored by the reconciler. -/
theorem foreign_recipient_insert_not_ignored :
    (handleNewFriendRequest (fun _ => Except.ok (some ⟨"u2", "alice", 0, 0⟩))
      ⟨some ⟨"r9", "u2", "u3", "pending"⟩, none⟩ initialState).1.friendRequests
      = [⟨"r9", ⟨"u2", "alice"⟩, "pending"⟩] ∧
    (handleNewFriendRequest (fun _ => Except.ok (some ⟨"u2", "alice", 0, 0⟩))
      ⟨some ⟨"r9", "u2", "u3", "pending"⟩, none⟩ initialState).2
      = some ⟨"New Friend Request", "alice wants to be your friend!"⟩ :=
  ⟨rfl, rfl⟩

/-- C8 (amended): an insert event whose record is missing or whose status is
not pending is ignored — no cache change and no notification; the handler
performs no recipient-identity check of its own, identity filtering being
delegated entirely to the server-side subscription filter. -/
theorem insert_ignored_only_without_pending_status
    (lk : String → Except String (Option ProfileRow))
    (p : RealtimePayload) (s : FriendsState)
    (h : p.new = none ∨ ∃ rec, p.new = some rec ∧ rec.status ≠ "pending") :
    handleNewFriendRequest lk p s = (s, none) := by
  unfold handleNewFriendRequest
  rcases h with h | ⟨rec, hn, hst⟩
  · rw [h]
  · rw [hn]
    simp [hst]

/-- C8 witness: a concrete insert with status accepted is dropped without
touching the cache and without a notification. -/
theorem insert_ignored_witness :
    ((⟨some ⟨"r1", "u2", "u1", "accepted"⟩, none⟩ : RealtimePayload).new = none ∨
      ∃ rec, (⟨some ⟨"r1", "u2", "u1", "accepted"⟩, none⟩ : RealtimePayload).new
          = some rec ∧ rec.status ≠ "pending") ∧
    handleNewFriendRequest (fun _ => Except.ok none)
      ⟨some ⟨"r1", "u2", "u1", "accepted"⟩, none⟩ initialState
      = (initialState, none) :=
  ⟨Or.inr ⟨⟨"r1", "u2", "u1", "accepted"⟩, rfl, by decide⟩,
   insert_ignored_only_without_pending_status (fun _ => Except.ok none)
     ⟨some ⟨"r1", "u2", "u1", "accepted"⟩, none⟩ initialState
     (Or.inr ⟨⟨"r1", "u2", "u1", "accepted"⟩, rfl, by decide⟩)⟩

theorem refreshFriendRequests_ok_friendRequests (uid : String) (s : FriendsState)
    (requestData : List FriendshipRow) (profilesData : List ProfileRow) :
    ((refreshFriendRequests (some uid) s (Except.ok requestData)
        (Except.ok profilesData)).1).friendRequests
      = (requestData.map (buildRequest profilesData)).filter
          (fun req => req.fromUser.username != "Unknown") := by
  unfold refreshFriendRequests
  by_cases h : requestData.length > 0
  · simp [h]
  · have hnil : requestData = [] :=
      List.length_eq_zero.mp (Nat.eq_zero_of_not_pos h)
    subst hnil
    simp

/-- C9: after a successful hydration via `refreshFriendRequests`, every
cached entry's sender profile was found in the profile store (with a
username that is not the "Unknown" placeholder), and conversely every
pending row whose requester resolved to a real, non-empty, non-"Unknown"
username is cached — so rows with a missing requester profile, an empty
username, or the literal username "Unknown" are silently excluded rather
than shown with a placeholder. -/
theorem hydrated_requests_have_known_senders :
    ∀ (uid : String) (s : FriendsState) (requestData : List FriendshipRow)
      (profilesData : List ProfileRow),
    (∀ r ∈ ((refreshFriendRequests (some uid) s (Except.ok requestData)
          (Except.ok profilesData)).1).friendRequests,
        r.fromUser.username ≠ "Unknown" ∧
        ∃ p ∈ profilesData, p.id = r.fromUser.id ∧
          p.username = r.fromUser.username) ∧
    (∀ req ∈ requestData, ∀ p : ProfileRow,
        profilesData.find? (fun q => q.id == req.user_id) = some p →
        p.username ≠ "Unknown" → p.username ≠ "" →
        buildRequest profilesData req ∈
          ((refreshFriendRequests (some uid) s (Except.ok requestData)
            (Except.ok profilesData)).1).friendRequests) := by
  intro uid s requestData profilesData
  constructor
  · intro r hr
    rw [refreshFriendRequests_ok_friendRequests] at hr
    obtain ⟨hrmap, hrfil⟩ := List.mem_filter.mp hr
    have hne : r.fromUser.username ≠ "Unknown" := bne_iff_ne.mp hrfil
    refine ⟨hne, ?_⟩
    rcases List.mem_map.mp hrmap with ⟨req, hreq, hbuild⟩
    cases hf : profilesData.find? (fun q => q.id == req.user_id) with
    | none =>
      exfalso
      apply hne
      rw [← hbuild]
      simp [buildRequest, hf]
    | some p =>
      by_cases hemp : (p.username == "") = true
      · exfalso
        apply hne
        rw [← hbuild]
        simp [buildRequest, hf, hemp]
      · have hpred : (p.id == req.user_id) = true :=
          @List.find?_some ProfileRow (fun q => q.id == req.user_id) p
            profilesData hf
        have hpid : p.id = req.user_id := beq_iff_eq.mp hpred
        refine ⟨p, List.mem_of_find?_eq_some hf, ?_, ?_⟩
        · rw [← hbuild]
          simp [buildRequest, hf, hemp, hpid]
        · rw [← hbuild]
          simp [buildRequest, hf, hemp]
  · intro req hreq p hf hpu hpe
    rw [refreshFriendRequests_ok_friendRequests]
    refine List.mem_filter.mpr ⟨List.mem_map_of_mem _ hreq, ?_⟩
    simp [buildRequest, hf, hpe, hpu]

/-- C9 witness: a concrete pending row whose requester profile is present
(username "alice") lands in the cache after hydration. -/
theorem hydrated_requests_witness :
    ([⟨"u2", "alice", 0, 0⟩] : List ProfileRow).find?
        (fun q => q.id == ("u2" : String)) = some ⟨"u2", "alice", 0, 0⟩ ∧
    buildRequest [⟨"u2", "alice", 0, 0⟩] ⟨"r1", "u2", "u1", "pending"⟩ ∈
      ((refreshFriendRequests (some "u1") initialState
        (Except.ok [⟨"r1", "u2", "u1", "pending"⟩])
        (Except.ok [⟨"u2", "alice", 0, 0⟩])).1).friendRequests :=
  ⟨by decide,
   (hydrated_requests_have_known_senders "u1" initialState
      [⟨"r1", "u2", "u1", "pending"⟩] [⟨"u2", "alice", 0, 0⟩]).2
     ⟨"r1", "u2", "u1", "pending"⟩ (by decide) ⟨"u2", "alice", 0, 0⟩
     (by decide) (by decide) (by decide)⟩

theorem mem_insertUnique_self (x : String) (l : List String) :
    x ∈ insertUnique x l := by
  unfold insertUnique
  by_cases h : x ∈ l
  · simp [h]
  · simp [h]

theorem mem_insertUnique_of_mem (x y : String) (l : List String) (h : y ∈ l) :
    y ∈ insertUnique x l := by
  unfold insertUnique
  by_cases hx : x ∈ l
  · simpa [hx]
  · simp [hx, h]

theorem mem_collectStep_of_mem (uid : String) (acc : List String)
    (f : FriendshipRow) (y : String) (h : y ∈ acc) :
    y ∈ collectStep uid acc f := by
  unfold collectStep
  by_cases h1 : (f.user_id == uid) = true
  · rw [if_pos h1]
    exact mem_insertUnique_of_mem _ _ _ h
  · rw [if_neg h1]
    by_cases h2 : (f.friend_id == uid) = true
    · rw [if_pos h2]
      exact mem_insertUnique_of_mem _ _ _ h
    · rw [if_neg h2]
      exact h

theorem mem_foldl_collectStep_of_mem (uid : String) (rows : List FriendshipRow)
    (acc : List String) (y : String) (h : y ∈ acc) :
    y ∈ rows.foldl (collectStep uid) acc := by
  induction rows generalizing acc with
  | nil => exact h
  | cons g gs ih => exact ih _ (mem_collectStep_of_mem uid acc g y h)

theorem counterparty_mem_foldl_collectStep (uid : String)
    (rows : List FriendshipRow) (acc : List String) (f : FriendshipRow) :
    f ∈ rows →
    (f.user_id = uid → f.friend_id ∈ rows.foldl (collectStep uid) acc) ∧
    (f.user_id ≠ uid → f.friend_id = uid →
      f.user_id ∈ rows.foldl (collectStep uid) acc) := by
  induction rows generalizing acc with
  | nil => intro hf; cases hf
  | cons g gs ih =>
    intro hf
    rw [List.foldl_cons]
    rcases List.mem_cons.mp hf with heq | hf'
    · subst heq
      constructor
      · intro h1
        apply mem_foldl_collectStep_of_mem
        unfold collectStep
        rw [if_pos (beq_iff_eq.mpr h1)]
        exact mem_insertUnique_self _ _
      · intro h1 h2
        apply mem_foldl_collectStep_of_mem
        unfold collectStep
        rw [if_neg (by simpa using h1), if_pos (beq_iff_eq.mpr h2)]
        exact mem_insertUnique_self _ _
    · exact ih _ hf'

theorem contains_eq_true_iff_mem (l : List String) (a : String) :
    l.contains a = true ↔ a ∈ l := by
  simp [List.contains]

/-- Case analysis on `searchUsers`: the result is either the empty list, or
the user is authenticated, the query nonblank, both store queries succeeded,
and the result is the matching-profiles page filtered by the exclusion set
built from the caller's pending/accepted friendships. -/
theorem searchUsers_cases (cu : Option String) (q : String)
    (pt : List ProfileRow) (ft : List FriendshipRow) (pe fe : Option String) :
    searchUsers cu q pt ft pe fe = [] ∨
    ∃ uid, cu = some uid ∧ isBlank q = false ∧ pe = none ∧ fe = none ∧
      searchUsers cu q pt ft pe fe =
        ((pt.filter (fun p => ilikeContains q p.username && p.id != uid)).take
            10).filter
          (fun p => !((collectCounterparties uid (ft.filter (fun f =>
              (f.user_id == uid || f.friend_id == uid) &&
              (f.status == "pending" || f.status == "accepted")))).contains
                p.id)) := by
  unfold searchUsers
  cases cu with
  | none => exact Or.inl rfl
  | some uid =>
    cases hq : isBlank q with
    | true => simp [hq]
    | false =>
      cases pe with
      | some e => simp [hq]
      | none =>
        cases hm : ((pt.filter (fun p =>
            ilikeContains q p.username && p.id != uid)).take 10).isEmpty with
        | true => simp [hq, hm]
        | false =>
          cases fe with
          | some e => simp [hq, hm]
          | none =>
            refine Or.inr ⟨uid, rfl, rfl, rfl, rfl, ?_⟩
            simp [hq, hm]

/-- C10: `searchUsers` returns at most 10 results; when a user is
authenticated the result never contains that user, nor any user having a
pending or accepted friendship row with them in either direction; and it
returns the empty list — never failing — when no user is authenticated,
when the query trims to the empty string, or when either underlying store
query fails. -/
theorem searchUsers_spec :
    ∀ (cu : Option String) (q : String) (pt : List ProfileRow)
      (ft : List FriendshipRow) (pe fe : Option String),
    (searchUsers cu q pt ft pe fe).length ≤ 10 ∧
    (∀ uid, cu = some uid →
      ∀ p ∈ searchUsers cu q pt ft pe fe,
        p.id ≠ uid ∧
        ∀ f ∈ ft, (f.status = "pending" ∨ f.status = "accepted") →
          ¬(f.user_id = uid ∧ f.friend_id = p.id) ∧
          ¬(f.friend_id = uid ∧ f.user_id = p.id)) ∧
    (cu = none → searchUsers cu q pt ft pe fe = []) ∧
    (isBlank q = true → searchUsers cu q pt ft pe fe = []) ∧
    (pe ≠ none → searchUsers cu q pt ft pe fe = []) ∧
    (fe ≠ none → searchUsers cu q pt ft pe fe = []) := by
  intro cu q pt ft pe fe
  rcases searchUsers_cases cu q pt ft pe fe with hnil |
    ⟨uid, hcu, hq, hpe, hfe, heq⟩
  · rw [hnil]
    refine ⟨by simp, ?_, fun _ => rfl, fun _ => rfl, fun _ => rfl, fun _ => rfl⟩
    intro _ _ p hp
    cases hp
  · refine ⟨?_, ?_, ?_, ?_, ?_, ?_⟩
    · rw [heq]
      refine le_trans (List.length_filter_le _ _) ?_
      rw [List.length_take]
      exact min_le_left _ _
    · intro uid' hcu' p hp
      rw [hcu] at hcu'
      have huid : uid = uid' := by
        injection hcu'
      subst huid
      rw [heq] at hp
      obtain ⟨hptake, hpnotex⟩ := List.mem_filter.mp hp
      obtain ⟨hpfil, hpmatch⟩ :=
        List.mem_filter.mp (List.mem_of_mem_take hptake)
      have hpid : p.id ≠ uid :=
        bne_iff_ne.mp (Bool.and_elim_right hpmatch)
      have hnotmem : p.id ∉ collectCounterparties uid (ft.filter (fun f =>
          (f.user_id == uid || f.friend_id == uid) &&
          (f.status == "pending" || f.status == "accepted"))) := by
        intro hmem
        have := (contains_eq_true_iff_mem _ _).mpr hmem
        rw [Bool.not_eq_true'] at hpnotex
        rw [hpnotex] at this
        exact Bool.false_ne_true this
      refine ⟨hpid, ?_⟩
      intro f hf hstatus
      have hstatusb : (f.status == "pending" || f.status == "accepted") = true := by
        rcases hstatus with h | h <;> simp [h]
      constructor
      · rintro ⟨h1, h2⟩
        have hfin : f ∈ ft.filter (fun f =>
            (f.user_id == uid || f.friend_id == uid) &&
            (f.status == "pending" || f.status == "accepted")) :=
          List.mem_filter.mpr ⟨hf, by simp [h1, hstatusb]⟩
        have := ((counterparty_mem_foldl_collectStep uid _ [] f) hfin).1 h1
        rw [h2] at this
        exact hnotmem this
      · rintro ⟨h1, h2⟩
        by_cases huidf : f.user_id = uid
        · exact hpid (h2 ▸ huidf.symm ▸ rfl)
        · have hfin : f ∈ ft.filter (fun f =>
              (f.user_id == uid || f.friend_id == uid) &&
              (f.status == "pending" || f.status == "accepted")) :=
            List.mem_filter.mpr ⟨hf, by simp [h1, hstatusb]⟩
          have := ((counterparty_mem_foldl_collectStep uid _ [] f) hfin).2 huidf h1
          rw [h2] at this
          exact hnotmem this
    · intro h
      rw [h] at hcu
      cases hcu
    · intro h
      rw [h] at hq
      cases hq
    · intro h
      exact absurd hpe h
    · intro h
      exact absurd hfe h

/-- C10 witness: a concrete search by "li" as user "u1" finds "alice", who
is a different user with no friendship row involving "u1". -/
theorem searchUsers_spec_witness :
    (some "u1" : Option String) = some "u1" ∧
    (⟨"u2", "alice", 0, 0⟩ : ProfileRow) ∈
      searchUsers (some "u1") "li" [⟨"u2", "alice", 0, 0⟩] [] none none ∧
    (⟨"u2", "alice", 0, 0⟩ : ProfileRow).id ≠ "u1" :=
  ⟨rfl, by decide,
   ((searchUsers_spec (some "u1") "li" [⟨"u2", "alice", 0, 0⟩] [] none
      none).2.1 "u1" rfl ⟨"u2", "alice", 0, 0⟩ (by decide)).1⟩

end FriendsStore
